import Mathlib

/-!
A shallow embedding of the real-time voice-session engine implemented in
`src/hooks/useLiveGemini.ts`.  All times are exact rationals in the playback
device clock domain (seconds since device start).  The playback scheduler,
the interruption handler, the natural-completion grace timer, the session
lifecycle state machine and the idempotent teardown routine are translated
directly from the source file.
-/

namespace LiveGemini

/-- an `AudioBufferSourceNode` created for one decoded inbound chunk:
its scheduled start time (the argument of `source.start(...)` at line 223),
its decoded duration (`audioBuffer.duration`), and whether `stop()` has been
called on it. -/
structure Source where
  start : ℚ
  duration : ℚ
  stopped : Bool
deriving DecidableEq

/-- the playback-side state of the hook: `nextStart` is `nextStartTimeRef`,
`sources` records every source node ever created (keyed by creation index),
`live` is `activeSourcesRef` (a set of source keys), `timers` the pending
`setTimeout` deadlines scheduled by `onended`, `isSpeaking` the React state
of the same name, and `connected` the `isConnected` React state (never
touched by the audio-message handler).  `nextId` supplies fresh keys. -/
structure PlayState where
  nextStart : ℚ
  sources : List (Nat × Source)
  live : List Nat
  timers : List ℚ
  isSpeaking : Bool
  connected : Bool
  nextId : Nat
deriving DecidableEq

/-- the 200 ms grace delay of the `setTimeout` at lines 232-236, in seconds. -/
def graceDelay : ℚ := 1 / 5

/-- processing of one inbound audio chunk (lines 199-241 of the source):
first `nextStartTimeRef.current = max(nextStartTimeRef.current,
outputCtx.currentTime)` (lines 206-209), then the awaited decode.  `decoded =
some d` is a successful decode of duration `d`: a source node is created,
started at the pre-commit cursor, registered in `activeSourcesRef`, the
cursor advances by `d` and `setIsSpeaking(true)` runs (lines 218-227).
`decoded = none` is a decode failure: the catch block at lines 238-240 only
logs, so nothing else changes. -/
def processChunk (s : PlayState) (arrival : ℚ) (decoded : Option ℚ) : PlayState :=
  let ns := max s.nextStart arrival
  match decoded with
  | none => { s with nextStart := ns }
  | some d =>
      { s with
        nextStart := ns + d
        sources := s.sources ++ [(s.nextId, { start := ns, duration := d, stopped := false })]
        live := s.live ++ [s.nextId]
        isSpeaking := true
        nextId := s.nextId + 1 }

/-- the events handled by the playback side of the hook: an inbound audio
chunk observed at device time `arrival`, the `interrupted` control event,
the `onended` callback of source `id` firing at device time `now`, and the
earliest pending grace `setTimeout` firing. -/
inductive PlayEvent where
  | chunk (arrival : ℚ) (decoded : Option ℚ)
  | interrupted
  | ended (id : Nat) (now : ℚ)
  | timer
deriving DecidableEq

/-- one step of the playback side.  `interrupted` is lines 244-252: stop
every node in `activeSourcesRef` (the `try`/`catch` makes the stop
unconditional), clear the set, zero the cursor, `setIsSpeaking(false)` —
all in the same handler invocation, touching no timer.  `ended` is lines
229-237: the node leaves `activeSourcesRef` at once and a 200 ms timeout is
scheduled.  `timer` is the timeout body: `setIsSpeaking(false)` only if
`activeSourcesRef.current.size === 0` at firing time. -/
def processEvent (s : PlayState) : PlayEvent → PlayState
  | .chunk arrival decoded => processChunk s arrival decoded
  | .interrupted =>
      { s with
        sources := s.sources.map fun p =>
          if p.1 ∈ s.live then (p.1, { p.2 with stopped := true }) else p
        live := []
        nextStart := 0
        isSpeaking := false }
  | .ended id now =>
      { s with
        live := s.live.filter fun j => j != id
        timers := s.timers ++ [now + graceDelay] }
  | .timer =>
      match s.timers with
      | [] => s
      | _ :: rest =>
          { s with
            timers := rest
            isSpeaking := if s.live.isEmpty then false else s.isSpeaking }

/-- folding the playback step over a list of events. -/
def runPlay (s : PlayState) (es : List PlayEvent) : PlayState :=
  es.foldl processEvent s

/-- folding chunk processing alone over a list of (arrival time, decode
result) pairs, the shape of a pure audio-chunk trace. -/
def runChunks (s : PlayState) (cs : List (ℚ × Option ℚ)) : PlayState :=
  cs.foldl (fun t c => processChunk t c.1 c.2) s

/-- the playback state of a freshly opened session whose cursor holds `t0`
(the hook initializes `nextStartTimeRef` to 0 and every later value is
re-anchored by the `max` at lines 206-209; `t0` generalizes both). -/
def initPlay (t0 : ℚ) : PlayState :=
  { nextStart := t0
    sources := []
    live := []
    timers := []
    isSpeaking := false
    connected := true
    nextId := 0 }

/-- unfolding lemma: a failed decode only applies the `max` re-anchoring of
lines 206-209. -/
lemma processChunk_none (s : PlayState) (t : ℚ) :
    processChunk s t none = { s with nextStart := max s.nextStart t } := rfl

/-- unfolding lemma: a successful decode of duration `d` commits one segment
at the pre-commit cursor and advances the cursor by exactly `d`. -/
lemma processChunk_some (s : PlayState) (t d : ℚ) :
    processChunk s t (some d) =
      { s with
        nextStart := max s.nextStart t + d
        sources := s.sources ++
          [(s.nextId, { start := max s.nextStart t, duration := d, stopped := false })]
        live := s.live ++ [s.nextId]
        isSpeaking := true
        nextId := s.nextId + 1 } := rfl

/-- two half-open intervals, given as (start, duration), share a point. -/
def overlaps (a b : ℚ × ℚ) : Prop :=
  ∃ x : ℚ, a.1 ≤ x ∧ x < a.1 + a.2 ∧ b.1 ≤ x ∧ x < b.1 + b.2

/-- the scheduled playback interval of a registered source node. -/
def interval (p : Nat × Source) : ℚ × ℚ := (p.2.start, p.2.duration)

/-- the scheduling invariant maintained by chunk processing: every committed
segment ends no later than the cursor, and the committed segments are
ordered end-before-start. -/
def schedInv (s : PlayState) : Prop :=
  (∀ p ∈ s.sources, p.2.start + p.2.duration ≤ s.nextStart) ∧
  s.sources.Pairwise fun p q => p.2.start + p.2.duration ≤ q.2.start

/-- a chunk is well-formed when a successful decode has nonnegative duration
(an audio buffer duration is a sample count divided by a sample rate). -/
def durOk (c : ℚ × Option ℚ) : Bool :=
  match c.2 with
  | none => true
  | some d => decide (0 ≤ d)

lemma schedInv_processChunk (s : PlayState) (t : ℚ) (dec : Option ℚ)
    (hinv : schedInv s) (hd : ∀ d, dec = some d → 0 ≤ d) :
    schedInv (processChunk s t dec) := by
  obtain ⟨h1, h2⟩ := hinv
  cases dec with
  | none =>
      rw [processChunk_none]
      exact ⟨fun p hp => le_trans (h1 p hp) (le_max_left _ _), h2⟩
  | some d =>
      have hd0 : 0 ≤ d := hd d rfl
      rw [processChunk_some]
      constructor
      · intro p hp
        rcases List.mem_append.mp hp with h | h
        · exact le_trans (h1 p h)
            (le_trans (le_max_left _ _) (le_add_of_nonneg_right hd0))
        · obtain rfl := List.mem_singleton.mp h
          exact le_refl _
      · rw [List.pairwise_append]
        refine ⟨h2, List.pairwise_singleton _ _, ?_⟩
        intro a ha b hb
        obtain rfl := List.mem_singleton.mp hb
        exact le_trans (h1 a ha) (le_max_left _ _)

lemma schedInv_runChunks (cs : List (ℚ × Option ℚ)) :
    ∀ s : PlayState, schedInv s → (∀ c ∈ cs, durOk c = true) →
      schedInv (runChunks s cs) := by
  induction cs with
  | nil => exact fun s hs _ => hs
  | cons c cs ih =>
      intro s hs hd
      have hc : ∀ d, c.2 = some d → 0 ≤ d := by
        intro d hdc
        have hok := hd c (List.mem_cons_self _ _)
        simp [durOk, hdc] at hok
        exact hok
      have hstep : runChunks s (c :: cs) = runChunks (processChunk s c.1 c.2) cs := rfl
      rw [hstep]
      exact ih _ (schedInv_processChunk s c.1 c.2 hs hc)
        fun c2 h => hd c2 (List.mem_cons_of_mem _ h)

lemma not_overlaps_of_le {a b : ℚ × ℚ} (h : a.1 + a.2 ≤ b.1) :
    ¬ overlaps a b := by
  rintro ⟨x, _, hx2, hx3, _⟩
  linarith

/-- C1: for every sequence of inbound audio chunks with nonnegative decoded
durations arriving at arbitrary device times during an open session, the
scheduled playback segments never overlap; moreover each committed segment
starts exactly at the pre-commit value of the cursor and the cursor then
advances by exactly the decoded duration. -/
theorem C1_scheduler_no_overlap (t0 : ℚ) (cs : List (ℚ × Option ℚ))
    (hd : ∀ c ∈ cs, durOk c = true) :
    ((runChunks (initPlay t0) cs).sources.Pairwise fun p q =>
        ¬ overlaps (interval p) (interval q)) ∧
    ∀ (s : PlayState) (t d : ℚ),
      (processChunk s t (some d)).sources = s.sources ++
          [(s.nextId, { start := max s.nextStart t, duration := d, stopped := false })] ∧
      (processChunk s t (some d)).nextStart = max s.nextStart t + d := by
  constructor
  · have hinv : schedInv (runChunks (initPlay t0) cs) :=
      schedInv_runChunks cs (initPlay t0)
        ⟨by simp [initPlay], by simp [initPlay]⟩ hd
    exact hinv.2.imp fun h => not_overlaps_of_le h
  · exact fun s t d => ⟨rfl, rfl⟩

/-- a small concrete chunk trace used to instantiate `C1_scheduler_no_overlap`. -/
def c1Chunks : List (ℚ × Option ℚ) := [(10, some 1), (12, none), (11, some 2)]

/-- witness: `C1_scheduler_no_overlap` applied to a concrete three-chunk
trace containing a decode failure. -/
theorem C1_scheduler_no_overlap_witness :
    (∀ c ∈ c1Chunks, durOk c = true) ∧
    (((runChunks (initPlay 10) c1Chunks).sources.Pairwise fun p q =>
        ¬ overlaps (interval p) (interval q)) ∧
     ∀ (s : PlayState) (t d : ℚ),
       (processChunk s t (some d)).sources = s.sources ++
           [(s.nextId, { start := max s.nextStart t, duration := d, stopped := false })] ∧
       (processChunk s t (some d)).nextStart = max s.nextStart t + d) :=
  ⟨by decide, C1_scheduler_no_overlap 10 c1Chunks (by decide)⟩

/-- C3: three chunks of durations 0.5 s, 0.3 s, 0.2 s arriving back-to-back
at device time 10.0 s with the cursor at 10.0 are scheduled at 10.0, 10.5
and 10.8, and the cursor ends at 11.0. -/
theorem C3_back_to_back_schedule :
    ((runChunks (initPlay 10)
        [(10, some (1 / 2)), (10, some (3 / 10)), (10, some (1 / 5))]).sources.map
      fun p => p.2.start) = [10, 21 / 2, 54 / 5] ∧
    (runChunks (initPlay 10)
        [(10, some (1 / 2)), (10, some (3 / 10)), (10, some (1 / 5))]).nextStart = 11 := by
  constructor <;> norm_num [runChunks, processChunk, initPlay, max_def]

/-- C2: processing the `interrupted` control event stops every node of the
live-segment set unconditionally, clears the set, zeroes the cursor and
flips `isSpeaking` to false inside the same handler invocation, scheduling
no grace timer, whatever the number of segments in flight. -/
theorem C2_interruption_total (s : PlayState) :
    (processEvent s .interrupted).live = [] ∧
    (processEvent s .interrupted).nextStart = 0 ∧
    (processEvent s .interrupted).isSpeaking = false ∧
    (processEvent s .interrupted).timers = s.timers ∧
    ∀ p ∈ s.sources, p.1 ∈ s.live →
      (p.1, { p.2 with stopped := true }) ∈ (processEvent s .interrupted).sources := by
  refine ⟨rfl, rfl, rfl, rfl, ?_⟩
  intro p hp hlive
  have hmap : (p.1, { p.2 with stopped := true })
      = (fun q : Nat × Source =>
          if q.1 ∈ s.live then (q.1, { q.2 with stopped := true }) else q) p := by
    simp [hlive]
  rw [hmap]
  exact List.mem_map_of_mem _ hp

/-- a playback state with two segments in flight, the shape of Scenario C. -/
def twoLive : PlayState :=
  { nextStart := 13
    sources := [(0, { start := 10, duration := 1, stopped := false }),
                (1, { start := 11, duration := 2, stopped := false })]
    live := [0, 1]
    timers := []
    isSpeaking := true
    connected := true
    nextId := 2 }

/-- witness: `C2_interruption_total` applied while two segments are live. -/
theorem C2_interruption_total_witness :
    (processEvent twoLive .interrupted).live = [] ∧
    (processEvent twoLive .interrupted).isSpeaking = false ∧
    (0, { start := 10, duration := 1, stopped := true })
      ∈ (processEvent twoLive .interrupted).sources ∧
    (1, { start := 11, duration := 2, stopped := true })
      ∈ (processEvent twoLive .interrupted).sources := by
  obtain ⟨h1, _, h3, _, h5⟩ := C2_interruption_total twoLive
  exact ⟨h1, h3,
    h5 (0, { start := 10, duration := 1, stopped := false }) (by decide) (by decide),
    h5 (1, { start := 11, duration := 2, stopped := false }) (by decide) (by decide)⟩

/-- C8: a decode failure is local and non-fatal: no segment is committed,
the live-segment set, the speaking flag, the pending timers and the
connection flag are untouched, the cursor is not reset (it only takes the
`max` with the current device time), and the processing of any following
events proceeds exactly as it would from that state. -/
theorem C8_decode_failure_local (s : PlayState) (t : ℚ) (rest : List PlayEvent) :
    (processChunk s t none).sources = s.sources ∧
    (processChunk s t none).live = s.live ∧
    (processChunk s t none).isSpeaking = s.isSpeaking ∧
    (processChunk s t none).timers = s.timers ∧
    (processChunk s t none).connected = s.connected ∧
    (processChunk s t none).nextStart = max s.nextStart t ∧
    runPlay (processChunk s t none) rest
      = runPlay { s with nextStart := max s.nextStart t } rest :=
  ⟨rfl, rfl, rfl, rfl, rfl, rfl, rfl⟩

/-- C10: the decode-failure path is not fully state-preserving: the `max`
re-anchoring at lines 206-209 runs before the decode is awaited, so a
failed chunk still raises the cursor to the current device time (strictly,
when the device clock is ahead), while the live set and the committed
segments are unchanged and no duration is added. -/
theorem C10_decode_failure_raises_cursor :
    (∀ (s : PlayState) (t : ℚ),
      (processChunk s t none).nextStart = max s.nextStart t ∧
      (processChunk s t none).live = s.live ∧
      (processChunk s t none).sources = s.sources) ∧
    (processChunk (initPlay 0) 5 none).nextStart = 5 ∧
    (initPlay 0).nextStart = 0 := by
  refine ⟨fun s t => ⟨rfl, rfl, rfl⟩, ?_, rfl⟩
  show max (initPlay 0).nextStart 5 = 5
  norm_num [initPlay, max_def]

/-- an event trace in which segment 0 ends naturally, segment 1 joins the
live set strictly inside the 200 ms grace window of segment 0 and also ends
inside it, and then the pending grace timeout of segment 0 fires.  All
device times are consistent: segment 0 plays [10, 10.1), its grace deadline
is 10.3, segment 1 arrives at 10.15 and plays [10.15, 10.2). -/
def flickerTrace : List PlayEvent :=
  [PlayEvent.chunk 10 (some (1 / 10)),
   PlayEvent.ended 0 (101 / 10),
   PlayEvent.chunk (203 / 20) (some (1 / 20)),
   PlayEvent.ended 1 (51 / 5),
   PlayEvent.timer]

/-- C9 counterexample: the grace re-evaluation is not canceled when a new
segment joins the live set during the delay.  In `flickerTrace` a new
segment joins at 10.15, strictly inside the window (10.1, 10.3) of the
pending timeout, yet when that timeout fires `isSpeaking` becomes false,
because the callback only checks emptiness of the set at firing time. -/
theorem C9_grace_not_cancelled_counterexample :
    (runPlay (initPlay 10) flickerTrace).isSpeaking = false ∧
    (runPlay (initPlay 10) (flickerTrace.take 3)).isSpeaking = true ∧
    (runPlay (initPlay 10) (flickerTrace.take 3)).live = [1] ∧
    (runPlay (initPlay 10) (flickerTrace.take 2)).timers = [103 / 10] ∧
    (101 / 10 : ℚ) < 203 / 20 ∧ (203 / 20 : ℚ) < 103 / 10 := by
  refine ⟨?_, ?_, ?_, ?_, by norm_num, by norm_num⟩ <;>
    norm_num [runPlay, processEvent, processChunk, initPlay, flickerTrace,
      graceDelay, max_def]

/-- C9 amended: natural completion removes the segment from the live set at
once, leaves `isSpeaking` untouched and schedules a 200 ms timeout; when a
pending timeout fires it re-evaluates the set instead of being canceled:
`isSpeaking` is left unchanged whenever the live set is non-empty at firing
time, and becomes false whenever the set is empty then. -/
theorem C9_grace_delay_amended :
    (∀ (s : PlayState) (id : Nat) (t : ℚ),
      (processEvent s (.ended id t)).live = s.live.filter (fun j => j != id) ∧
      (processEvent s (.ended id t)).isSpeaking = s.isSpeaking ∧
      (processEvent s (.ended id t)).timers = s.timers ++ [t + graceDelay]) ∧
    (∀ s : PlayState, s.live ≠ [] → (processEvent s .timer).isSpeaking = s.isSpeaking) ∧
    (∀ s : PlayState, s.live = [] → s.timers ≠ [] →
      (processEvent s .timer).isSpeaking = false) := by
  refine ⟨fun s id t => ⟨rfl, rfl, rfl⟩, ?_, ?_⟩
  · intro s hlive
    cases htm : s.timers with
    | nil => simp [processEvent, htm]
    | cons a rest =>
        cases hl : s.live with
        | nil => exact absurd hl hlive
        | cons b bs => simp [processEvent, htm, hl]
  · intro s hlive htimers
    cases htm : s.timers with
    | nil => exact absurd htm htimers
    | cons a rest => simp [processEvent, htm, hlive]

/-- a playback state with one live segment and one pending grace timer. -/
def oneLive : PlayState :=
  { nextStart := 12
    sources := [(0, { start := 10, duration := 2, stopped := false })]
    live := [0]
    timers := [5]
    isSpeaking := true
    connected := true
    nextId := 1 }

/-- a playback state with an empty live set and one pending grace timer. -/
def noneLive : PlayState :=
  { nextStart := 12
    sources := []
    live := []
    timers := [5]
    isSpeaking := true
    connected := true
    nextId := 1 }

/-- witness: `C9_grace_delay_amended` applied at a state whose live set is
non-empty and at a state whose live set is empty. -/
theorem C9_grace_delay_amended_witness :
    (processEvent oneLive .timer).isSpeaking = oneLive.isSpeaking ∧
    (processEvent noneLive .timer).isSpeaking = false :=
  ⟨C9_grace_delay_amended.2.1 oneLive (by decide),
   C9_grace_delay_amended.2.2 noneLive (by decide) (by decide)⟩

/-- the externally visible resource-releasing actions performed by
`cleanup` (lines 47-96) and the graceful close attempted by `disconnect`
(lines 287-303). -/
inductive RAction where
  | stopSource (id : Nat)
  | disconnectProcessor
  | disconnectInput
  | stopTracks
  | closeInputCtx
  | closeOutputCtx
  | closeSession
deriving DecidableEq

/-- the lifecycle-side state of the hook: the React flags, the mutable refs
(each Boolean records whether the ref currently holds a resource), the set
of live source nodes, the cursor, plus two observables: `transportOpen`
records whether the remote live session reached its open callback and has
not been explicitly closed, and `emitLog` records, for every frame emitted
by `onaudioprocess`, the value of `isConnected` at emission time. -/
structure EngineState where
  isConnected : Bool
  isConnecting : Bool
  isSpeaking : Bool
  error : Option String
  inputCtx : Bool
  outputCtx : Bool
  inputAnalyser : Bool
  outputAnalyser : Bool
  scriptProcessor : Bool
  inputSource : Bool
  stream : Bool
  sessionPromise : Bool
  sessionResolve : Bool
  activeSources : List Nat
  nextStart : ℚ
  transportOpen : Bool
  emitLog : List Bool
deriving DecidableEq

/-- the state part of `cleanup` (lines 47-96): stop every live source and
clear the set, disconnect and null the processor and the input source, stop
the microphone stream, close both audio contexts, zero the cursor, null the
session promise refs, reset the React flags and the analysers.  `error` is
untouched (there is no `setError` in `cleanup`) and the remote session is
never closed here: only the local promise refs are nulled. -/
def cleanupState (s : EngineState) : EngineState :=
  { s with
    activeSources := []
    scriptProcessor := false
    inputSource := false
    stream := false
    inputCtx := false
    outputCtx := false
    nextStart := 0
    sessionPromise := false
    sessionResolve := false
    isConnected := false
    isConnecting := false
    isSpeaking := false
    inputAnalyser := false
    outputAnalyser := false }

/-- the release actions `cleanup` performs, in source order: one (error
swallowing) `stop` per live source node, then each disconnect/stop/close
guarded by its ref being non-null. -/
def cleanupActs (s : EngineState) : List RAction :=
  s.activeSources.map RAction.stopSource
    ++ (if s.scriptProcessor then [RAction.disconnectProcessor] else [])
    ++ (if s.inputSource then [RAction.disconnectInput] else [])
    ++ (if s.stream then [RAction.stopTracks] else [])
    ++ (if s.inputCtx then [RAction.closeInputCtx] else [])
    ++ (if s.outputCtx then [RAction.closeOutputCtx] else [])

/-- `cleanup` as a pair of its resulting state and the actions it performs. -/
def cleanup (s : EngineState) : EngineState × List RAction :=
  (cleanupState s, cleanupActs s)

/-- `disconnect` (lines 287-303): a best-effort graceful close through the
session promise ref when that ref is non-null, then unconditional local
cleanup. -/
def disconnect (s : EngineState) : EngineState × List RAction :=
  let s1 := if s.sessionPromise then { s with transportOpen := false } else s
  (cleanupState s1,
   (if s.sessionPromise then [RAction.closeSession] else []) ++ cleanupActs s1)

/-- the synchronous part of `connect` (lines 98-141): the guard at line 99
returns immediately when a session is already connected or connecting;
otherwise the error is cleared, both audio contexts and both analysers are
created and the session promise pair is installed. -/
def connectStep (s : EngineState) : EngineState :=
  if s.isConnected || s.isConnecting then s
  else
    { s with
      isConnecting := true
      error := none
      inputCtx := true
      outputCtx := true
      inputAnalyser := true
      outputAnalyser := true
      sessionPromise := true
      sessionResolve := true }

/-- the asynchronous lifecycle events of the hook: a user connect request;
the transport open confirmation, with the awaited microphone acquisition
inside the open callback (lines 153-193) either succeeding or failing; one
invocation of the capture callback `onaudioprocess`; the transport close
and error callbacks; and a user disconnect request. -/
inductive LEvent where
  | connectReq
  | openOk
  | openMicFail
  | frame
  | closeEvt
  | errorEvt
  | disconnectReq
deriving DecidableEq

/-- one lifecycle step.  `openOk` is `onopen` (lines 153-188): the
connection flags flip before the microphone is acquired, then the stream,
input source and script processor are installed — capture starts only
here.  `openMicFail` is the catch at lines 189-193: flags flip, the error
is set and `cleanup` runs.  `frame` is `onaudioprocess` (lines 171-185): a
frame is emitted only when the processor is installed and the session
promise ref is non-null.  `closeEvt` and `errorEvt` are `onclose` and
`onerror` (lines 254-262). -/
def lifeStep (s : EngineState) : LEvent → EngineState
  | .connectReq => connectStep s
  | .openOk =>
      { s with
        isConnected := true
        isConnecting := false
        transportOpen := true
        stream := true
        inputSource := true
        scriptProcessor := true }
  | .openMicFail =>
      cleanupState
        { s with
          isConnected := true
          isConnecting := false
          transportOpen := true
          error := some "Microphone access failed." }
  | .frame =>
      if s.scriptProcessor && s.sessionPromise then
        { s with emitLog := s.emitLog ++ [s.isConnected] }
      else s
  | .closeEvt => cleanupState s
  | .errorEvt => cleanupState { s with error := some "Connection error." }
  | .disconnectReq => (disconnect s).1

/-- folding the lifecycle step over a list of events. -/
def runLife (s : EngineState) (es : List LEvent) : EngineState :=
  es.foldl lifeStep s

/-- the state of the hook before any event: all refs null, all flags false,
no error, cursor zero, no transport connection. -/
def initEngine : EngineState :=
  { isConnected := false
    isConnecting := false
    isSpeaking := false
    error := none
    inputCtx := false
    outputCtx := false
    inputAnalyser := false
    outputAnalyser := false
    scriptProcessor := false
    inputSource := false
    stream := false
    sessionPromise := false
    sessionResolve := false
    activeSources := []
    nextStart := 0
    transportOpen := false
    emitLog := [] }

/-- the Idle resource condition of the spec: every resource ref null, the
live-segment set empty, all React flags false and the cursor zero. -/
def isIdleRes (s : EngineState) : Bool :=
  !s.isConnected && !s.isConnecting && !s.isSpeaking &&
  !s.scriptProcessor && !s.inputSource && !s.stream &&
  !s.inputCtx && !s.outputCtx && !s.inputAnalyser && !s.outputAnalyser &&
  !s.sessionPromise && !s.sessionResolve &&
  s.activeSources.isEmpty && decide (s.nextStart = 0)

/-- the capture-gating invariant: the script processor is installed only
while the session is connected, and every frame ever emitted was emitted
while connected. -/
def lifeInv (s : EngineState) : Prop :=
  (s.scriptProcessor = true → s.isConnected = true) ∧ ∀ b ∈ s.emitLog, b = true

lemma lifeInv_step (s : EngineState) (e : LEvent) (h : lifeInv s) :
    lifeInv (lifeStep s e) := by
  obtain ⟨h1, h2⟩ := h
  cases e with
  | connectReq =>
      unfold lifeStep connectStep
      by_cases hg : (s.isConnected || s.isConnecting) = true
      · rw [if_pos hg]
        exact ⟨h1, h2⟩
      · rw [if_neg hg]
        exact ⟨h1, h2⟩
  | openOk => exact ⟨fun _ => rfl, h2⟩
  | openMicFail => exact ⟨fun hx => by simp [lifeStep, cleanupState] at hx, h2⟩
  | frame =>
      unfold lifeStep
      by_cases hc : (s.scriptProcessor && s.sessionPromise) = true
      · rw [if_pos hc]
        have hc2 := hc
        rw [Bool.and_eq_true] at hc2
        refine ⟨h1, fun b hb => ?_⟩
        rcases List.mem_append.mp hb with hmem | hmem
        · exact h2 b hmem
        · obtain rfl := List.mem_singleton.mp hmem
          exact h1 hc2.1
      · rw [if_neg hc]
        exact ⟨h1, h2⟩
  | closeEvt => exact ⟨fun hx => by simp [lifeStep, cleanupState] at hx, h2⟩
  | errorEvt => exact ⟨fun hx => by simp [lifeStep, cleanupState] at hx, h2⟩
  | disconnectReq =>
      by_cases hp : s.sessionPromise = true
      all_goals refine ⟨fun hx => absurd hx ?_, fun b hb => h2 b ?_⟩
      · simp [lifeStep, disconnect, cleanupState, hp]
      · simpa [lifeStep, disconnect, cleanupState, hp] using hb
      · simp [lifeStep, disconnect, cleanupState, hp]
      · simpa [lifeStep, disconnect, cleanupState, hp] using hb

lemma lifeInv_run (es : List LEvent) :
    ∀ s : EngineState, lifeInv s → lifeInv (runLife s es) := by
  induction es with
  | nil => exact fun s hs => hs
  | cons e es ih =>
      intro s hs
      exact ih (lifeStep s e) (lifeInv_step s e hs)

/-- C4: capture is gated on openness: in every state reachable from the
initial state by any event sequence, every frame recorded in the emission
log was emitted while `isConnected` was true — the capture pipeline never
hands a frame to the transport while the session is idle or connecting,
because the processor is installed only inside the open callback. -/
theorem C4_capture_gated_on_open (es : List LEvent) (b : Bool)
    (hb : b ∈ (runLife initEngine es).emitLog) : b = true := by
  have hinv : lifeInv (runLife initEngine es) :=
    lifeInv_run es initEngine ⟨by simp [initEngine], by simp [initEngine]⟩
  exact hinv.2 b hb

/-- a lifecycle trace that connects, opens with microphone success, and
lets the capture callback fire once. -/
def c4Trace : List LEvent := [LEvent.connectReq, LEvent.openOk, LEvent.frame]

/-- witness: `C4_capture_gated_on_open` applied to a concrete trace whose
single emitted frame was emitted while connected. -/
theorem C4_capture_gated_on_open_witness :
    true ∈ (runLife initEngine c4Trace).emitLog ∧ true = true :=
  ⟨by decide, C4_capture_gated_on_open c4Trace true (by decide)⟩

/-- C5: teardown is idempotent: running `cleanup` after `cleanup` changes
nothing and releases nothing; one `cleanup` already leaves every resource
ref null, the live set empty and the flags reset; `cleanup` on any
already-Idle state is a complete no-op that performs no release action;
and `disconnect` after `disconnect` likewise changes nothing and performs
no action. -/
theorem C5_teardown_idempotent (s : EngineState) :
    cleanup (cleanup s).1 = ((cleanup s).1, []) ∧
    isIdleRes (cleanup s).1 = true ∧
    (∀ t : EngineState, isIdleRes t = true → cleanup t = (t, [])) ∧
    disconnect (disconnect s).1 = ((disconnect s).1, []) := by
  refine ⟨rfl, rfl, ?_, ?_⟩
  · intro t ht
    cases t
    simp only [isIdleRes, Bool.and_eq_true, Bool.not_eq_true', decide_eq_true_eq,
      List.isEmpty_iff] at ht
    obtain ⟨⟨⟨⟨⟨⟨⟨⟨⟨⟨⟨⟨⟨e1, e2⟩, e3⟩, e4⟩, e5⟩, e6⟩, e7⟩, e8⟩, e9⟩, e10⟩, e11⟩, e12⟩, e13⟩, e14⟩ := ht
    subst e1 e2 e3 e4 e5 e6 e7 e8 e9 e10 e11 e12 e13 e14
    rfl
  · simp [disconnect, cleanup, cleanupState, cleanupActs]

/-- witness: `C5_teardown_idempotent` applied at the initial state, whose
Idle branch is instantiated at the already-Idle initial state. -/
theorem C5_teardown_idempotent_witness :
    isIdleRes (cleanup initEngine).1 = true ∧ cleanup initEngine = (initEngine, []) :=
  ⟨(C5_teardown_idempotent initEngine).2.1,
   (C5_teardown_idempotent initEngine).2.2.1 initEngine (by decide)⟩

/-- C6: a connect request made while the session is connecting or already
connected is a no-op: the guard at line 99 returns before any state change
or allocation, leaving status, error, cursor and every ref unchanged. -/
theorem C6_second_connect_noop (s : EngineState)
    (h : s.isConnecting = true ∨ s.isConnected = true) :
    connectStep s = s := by
  rcases h with h | h <;> simp [connectStep, h]

/-- a session in the Connecting state, as left by a first connect request. -/
def connectingEngine : EngineState := connectStep initEngine

/-- witness: `C6_second_connect_noop` applied to a concrete connecting
state. -/
theorem C6_second_connect_noop_witness :
    connectingEngine.isConnecting = true ∧
    connectStep connectingEngine = connectingEngine :=
  ⟨by decide, C6_second_connect_noop connectingEngine (Or.inl (by decide))⟩

/-- the trace of Scenario D: a connect request, then the transport opens
and the microphone acquisition fails. -/
def micFailTrace : List LEvent := [LEvent.connectReq, LEvent.openMicFail]

/-- C7 counterexample: after a capture failure immediately following open,
the teardown that runs does NOT close the already-open transport: the
failure path calls `cleanup`, which only nulls the local session promise
refs and never invokes `close` on the session — only `disconnect` attempts
that.  Concretely, after `micFailTrace` the transport is still open even
though local teardown completed and the error is set. -/
theorem C7_transport_left_open_counterexample :
    (runLife initEngine micFailTrace).transportOpen = true ∧
    isIdleRes (runLife initEngine micFailTrace) = true ∧
    (runLife initEngine micFailTrace).error = some "Microphone access failed." := by
  decide

/-- C7 amended: if microphone acquisition fails immediately after the
transport confirms open, a user-visible error is set and full local
teardown runs (every resource ref null, live set empty, flags reset, the
local reference to the session dropped), but the open transport connection
itself is not closed; a subsequent connect request from Idle then proceeds
independently, entering Connecting and clearing the error. -/
theorem C7_capture_failure_amended :
    (runLife initEngine micFailTrace).error = some "Microphone access failed." ∧
    isIdleRes (runLife initEngine micFailTrace) = true ∧
    (runLife initEngine micFailTrace).sessionPromise = false ∧
    (runLife initEngine micFailTrace).transportOpen = true ∧
    (runLife initEngine (micFailTrace ++ [LEvent.connectReq])).isConnecting = true ∧
    (runLife initEngine (micFailTrace ++ [LEvent.connectReq])).error = none := by
  decide

end LiveGemini
